import Mathlib

/-!
Verification development for the ConsultEase central system
(`central_system/main.py`, `scripts/migrations/add_consultation_response_fields.py`).

The Python code is shallowly embedded: external calls (database, MQTT client,
GUI toolkit) are represented by explicit outcome parameters of type
`Except String _`, where `.error` stands for a raised exception, and the
GUI/application state is an explicit record threaded through the handlers.
-/

namespace ConsultEase

/-! ## Service callables (`ConsultEaseApp._start_*`, `_stop_*`, `_check_*`)

Each of the nine service callables in `main.py` wraps a few external calls in a
`try`/`except` block and returns a boolean.  `ServiceEnv` records the outcome of
each external call made during one invocation of a callable: `.ok` is a normal
return, `.error` a raised exception. -/

structure ServiceEnv where
  /-- Outcome of `get_db()` (`central_system.models.base`). -/
  get_db : Except String Unit
  /-- Outcome of `get_async_mqtt_service()`. -/
  get_async_mqtt_service : Except String Unit
  /-- Outcome of `mqtt_service.connect()`. -/
  mqtt_connect : Except String Unit
  /-- Outcome of `mqtt_service.disconnect()`. -/
  mqtt_disconnect : Except String Unit
  /-- Outcome of `mqtt_service.is_connected()`: a boolean, or an exception. -/
  mqtt_is_connected : Except String Bool
  /-- Outcome of the `self.show_login_window()` call made by `_start_ui_service`. -/
  show_login_window_call : Except String Unit

/-- `ConsultEaseApp._start_database_service`: `get_db()` then `return True`;
`except` returns `False`. -/
def start_database_service (env : ServiceEnv) : Bool :=
  match env.get_db with
  | .ok _ => true
  | .error _ => false

/-- `ConsultEaseApp._stop_database_service`: same body as the start function
(`get_db()` then `return True`; `except` returns `False`). -/
def stop_database_service (env : ServiceEnv) : Bool :=
  match env.get_db with
  | .ok _ => true
  | .error _ => false

/-- `ConsultEaseApp._check_database_health`: `get_db()` then `return True`;
`except` returns `False`. -/
def check_database_health (env : ServiceEnv) : Bool :=
  match env.get_db with
  | .ok _ => true
  | .error _ => false

/-- `ConsultEaseApp._start_mqtt_service`: `get_async_mqtt_service()`,
`mqtt_service.connect()`, then `return True`; `except` returns `False`. -/
def start_mqtt_service (env : ServiceEnv) : Bool :=
  match env.get_async_mqtt_service with
  | .error _ => false
  | .ok _ =>
    match env.mqtt_connect with
    | .ok _ => true
    | .error _ => false

/-- `ConsultEaseApp._stop_mqtt_service`: `get_async_mqtt_service()`,
`mqtt_service.disconnect()`, then `return True`; `except` returns `False`. -/
def stop_mqtt_service (env : ServiceEnv) : Bool :=
  match env.get_async_mqtt_service with
  | .error _ => false
  | .ok _ =>
    match env.mqtt_disconnect with
    | .ok _ => true
    | .error _ => false

/-- `ConsultEaseApp._check_mqtt_health`: returns
`mqtt_service.is_connected()`; `except` returns `False`. -/
def check_mqtt_health (env : ServiceEnv) : Bool :=
  match env.get_async_mqtt_service with
  | .error _ => false
  | .ok _ =>
    match env.mqtt_is_connected with
    | .ok b => b
    | .error _ => false

/-- `ConsultEaseApp._start_ui_service`: `self.show_login_window()` then
`return True`; `except` returns `False`. -/
def start_ui_service (env : ServiceEnv) : Bool :=
  match env.show_login_window_call with
  | .ok _ => true
  | .error _ => false

/-- `ConsultEaseApp._stop_ui_service`: the `try` body is just `return True`
(nothing in it can raise). -/
def stop_ui_service (_env : ServiceEnv) : Bool :=
  true

/-- `ConsultEaseApp._check_ui_health`: the `try` body is just `return True`
(nothing in it can raise). -/
def check_ui_health (_env : ServiceEnv) : Bool :=
  true

/-! ## System coordinator registration (`_register_system_services`) -/

/-- The three service names used by `_register_system_services`
(`ServiceType.DATABASE`, `ServiceType.MQTT`, `ServiceType.UI`). -/
inductive ServiceType where
  | DATABASE
  | MQTT
  | UI
deriving DecidableEq

/-- The three callables supplied for one registered service. -/
structure RegisteredService where
  start_func : ServiceEnv → Bool
  stop_func : ServiceEnv → Bool
  health_check : ServiceEnv → Bool

/-- Modelled from the spec: the system/service coordinator
(`central_system/services/system_coordinator.py` is not under `src/`); per the
spec its state is no "data structure more complex than a mapping from service
name to three callables". -/
structure SystemCoordinator where
  services : ServiceType → Option RegisteredService

/-- Modelled from the spec: `register_service` stores the three callables
under the given service name in the coordinator's mapping. -/
def register_service (c : SystemCoordinator) (ty : ServiceType)
    (start_func stop_func health_check : ServiceEnv → Bool) : SystemCoordinator :=
  { services := fun t =>
      if t = ty then some ⟨start_func, stop_func, health_check⟩ else c.services t }

/-- A coordinator with no registered services. -/
def emptyCoordinator : SystemCoordinator :=
  { services := fun _ => none }

/-- `ConsultEaseApp._register_system_services`: registers the database, MQTT
and UI services, each with its start, stop and health-check callables. -/
def register_system_services (c : SystemCoordinator) : SystemCoordinator :=
  let c := register_service c .DATABASE
    start_database_service stop_database_service check_database_health
  let c := register_service c .MQTT
    start_mqtt_service stop_mqtt_service check_mqtt_health
  let c := register_service c .UI
    start_ui_service stop_ui_service check_ui_health
  c

/-! ## `ConsultEaseApp.__init__`: branch on `start_system()` -/

/-- The five controllers constructed by `__init__`, in construction order. -/
inductive ControllerType where
  | rfid
  | faculty
  | consultation
  | admin
  | faculty_response
deriving DecidableEq

/-- Result of the initialization step that branches on
`system_coordinator.start_system()`. -/
inductive InitOutcome where
  /-- `sys.exit(code)` was called. -/
  | exited (code : Nat)
  /-- Initialization continued and constructed the listed controllers. -/
  | started (controllers : List ControllerType)
deriving DecidableEq

/-- `ConsultEaseApp.__init__`, lines 109–118: if `start_system()` returned
`False`, call `sys.exit(1)`; otherwise construct the five controllers. -/
def init_after_start_system (start_system_result : Bool) : InitOutcome :=
  if start_system_result then
    .started [.rfid, .faculty, .consultation, .admin, .faculty_response]
  else
    .exited 1

/-! ## Call-counted start functions (for the no-retry claim)

To state that each start function makes exactly one attempt, the external call
is modelled as consuming the next entry of a result stream and bumping a call
counter; the function bodies below mirror `_start_mqtt_service` and
`_start_database_service` with the counter threaded through. -/

/-- One invocation of `mqtt_service.connect()` (or `get_db()`): consumes the
outcome for the current call number and increments the counter. -/
def external_call (results : Nat → Except String Unit) (calls : Nat) :
    Except String Unit × Nat :=
  (results calls, calls + 1)

/-- `_start_mqtt_service` with the number of `connect()` calls made recorded:
`get_async_mqtt_service()` (raises → `False`, no `connect()` call), one
`connect()` call, `return True`; `except` returns `False`. -/
def start_mqtt_service_counting (getter : Except String Unit)
    (connect_results : Nat → Except String Unit) (calls : Nat) : Bool × Nat :=
  match getter with
  | .error _ => (false, calls)
  | .ok _ =>
    let r := external_call connect_results calls
    match r.1 with
    | .ok _ => (true, r.2)
    | .error _ => (false, r.2)

/-- `_start_database_service` with the number of `get_db()` calls made
recorded: one `get_db()` call, `return True`; `except` returns `False`. -/
def start_database_service_counting
    (get_db_results : Nat → Except String Unit) (calls : Nat) : Bool × Nat :=
  let r := external_call get_db_results calls
  match r.1 with
  | .ok _ => (true, r.2)
  | .error _ => (false, r.2)

/-! ## Application state (windows, current student, timers)

The window classes (`LoginWindow`, `DashboardWindow`, `AdminLoginWindow`,
`AdminDashboardWindow`) and `WindowTransitionManager` live outside `src/`.
Per the spec they are GUI composition treated as out of scope; here each
window is its visibility flag plus the data `main.py` pushes into it, and the
transition animation only displays the target window (it does not re-show a
window that `main.py` has hidden). -/

structure Student where
  id : Nat
  name : String
deriving DecidableEq

structure Faculty where
  id : Nat
  name : String
deriving DecidableEq

structure Consultation where
  id : Nat
deriving DecidableEq

/-- Modelled from the spec: `LoginWindow` (GUI class, not under `src/`);
`show_error` displays a message, modelled by appending it to `errors`. -/
structure LoginWindowState where
  visible : Bool
  errors : List String
deriving DecidableEq

/-- Modelled from the spec: `DashboardWindow` (GUI class, not under `src/`);
`set_student`, `update_faculty_list`, `update_consultation_history`,
`show_success` and `show_error` store the data they are given. -/
structure DashboardWindowState where
  visible : Bool
  student : Option Student
  faculty_list : List Faculty
  consultation_history : List Consultation
  success_messages : List String
  error_messages : List String
deriving DecidableEq

/-- Modelled from the spec: `AdminLoginWindow` (GUI class, not under `src/`). -/
structure AdminLoginWindowState where
  visible : Bool
deriving DecidableEq

/-- Modelled from the spec: `AdminDashboardWindow` (GUI class, not under
`src/`); `update_faculty_list` stores the list it is given. -/
structure AdminDashboardWindowState where
  visible : Bool
  faculty_list : List Faculty
deriving DecidableEq

/-- Callbacks passed to `QTimer.singleShot` by the code modelled here. -/
inductive TimerCallback where
  | faculty_updated
deriving DecidableEq

/-- One pending `QTimer.singleShot(delay_ms, callback)`. -/
structure ScheduledTimer where
  delay_ms : Nat
  callback : TimerCallback
deriving DecidableEq

/-- The mutable `ConsultEaseApp` state the window handlers touch: the four
window slots (`None` until created), the current student, the pending
single-shot timers and the fullscreen flag. -/
structure AppState where
  current_student : Option Student
  login_window : Option LoginWindowState
  dashboard_window : Option DashboardWindowState
  admin_login_window : Option AdminLoginWindowState
  admin_dashboard_window : Option AdminDashboardWindowState
  timers : List ScheduledTimer
  fullscreen : Bool
deriving DecidableEq

/-- Results returned by the controllers during one handler invocation:
`faculty_controller.get_available_faculty()`,
`faculty_controller.get_all_faculty()` and
`consultation_controller.get_student_consultations(student_id)`. -/
structure ControllerEnv where
  available_faculty : List Faculty
  all_faculty : List Faculty
  student_consultations : Nat → List Consultation

/-- A freshly constructed `LoginWindow` (a new Qt window is not visible). -/
def newLoginWindow : LoginWindowState :=
  { visible := false, errors := [] }

/-- A freshly constructed `DashboardWindow`. -/
def newDashboardWindow : DashboardWindowState :=
  { visible := false, student := none, faculty_list := [],
    consultation_history := [], success_messages := [], error_messages := [] }

/-- `ConsultEaseApp.show_login_window`: create the login window if needed,
find the currently visible window among the other three, hide all three,
transition to (or plainly show) the login window, and reset
`current_student` to `None`. -/
def show_login_window (st : AppState) : AppState :=
  -- create the login window if it does not exist
  let lw := match st.login_window with
    | some lw => lw
    | none => newLoginWindow
  -- get the current active window among dashboard, admin login, admin dashboard
  let active : Bool :=
    (match st.dashboard_window with | some w => w.visible | none => false) ||
    (match st.admin_login_window with | some w => w.visible | none => false) ||
    (match st.admin_dashboard_window with | some w => w.visible | none => false)
  -- hide all other windows
  let dash := st.dashboard_window.map fun w => { w with visible := false }
  let alw := st.admin_login_window.map fun w => { w with visible := false }
  let adw := st.admin_dashboard_window.map fun w => { w with visible := false }
  -- transition from the active window, or just show the login window
  let lw := if active then { lw with visible := true } else { lw with visible := true }
  -- reset the current student
  { st with
    current_student := none,
    login_window := some lw,
    dashboard_window := dash,
    admin_login_window := alw,
    admin_dashboard_window := adw }

/-- `ConsultEaseApp.show_dashboard_window`: set `current_student`, create the
dashboard if needed, push the student data / available faculty / consultation
history into it when student data is given, hide the other windows, display
the dashboard, and schedule a faculty-list refresh in 5000 ms. -/
def show_dashboard_window (student_data : Option Student) (env : ControllerEnv)
    (st : AppState) : AppState :=
  -- update the current student
  let st := { st with current_student := student_data }
  -- create the dashboard window if it does not exist
  let dw := match st.dashboard_window with
    | some dw => dw
    | none => newDashboardWindow
  -- update the dashboard with student data
  let dw := match student_data with
    | some s =>
      { dw with
        student := some s,
        faculty_list := env.available_faculty,
        consultation_history := env.student_consultations s.id }
    | none => dw
  -- get the current active window among login, admin login, admin dashboard
  let active : Bool :=
    (match st.login_window with | some w => w.visible | none => false) ||
    (match st.admin_login_window with | some w => w.visible | none => false) ||
    (match st.admin_dashboard_window with | some w => w.visible | none => false)
  -- hide all other windows
  let lwin := st.login_window.map fun w => { w with visible := false }
  let alw := st.admin_login_window.map fun w => { w with visible := false }
  let adw := st.admin_dashboard_window.map fun w => { w with visible := false }
  -- transition from the active window, or just show the dashboard window
  let dw := if active then { dw with visible := true } else { dw with visible := true }
  -- QTimer.singleShot(5000, self.handle_faculty_updated)
  { st with
    dashboard_window := some dw,
    login_window := lwin,
    admin_login_window := alw,
    admin_dashboard_window := adw,
    timers := st.timers ++ [⟨5000, .faculty_updated⟩] }

/-- `ConsultEaseApp.handle_faculty_updated`: while the dashboard is visible,
refresh its faculty list and re-schedule itself in 5000 ms; also refresh the
admin dashboard's faculty list when that window is visible. -/
def handle_faculty_updated (env : ControllerEnv) (st : AppState) : AppState :=
  -- refresh the faculty list in the dashboard and schedule the next update
  let st : AppState :=
    match st.dashboard_window with
    | some dw =>
      if dw.visible then
        { st with
          dashboard_window := some { dw with faculty_list := env.available_faculty },
          timers := st.timers ++ [⟨5000, .faculty_updated⟩] }
      else st
    | none => st
  -- refresh the faculty list in the admin dashboard
  match st.admin_dashboard_window with
  | some aw =>
    if aw.visible then
      { st with admin_dashboard_window := some { aw with faculty_list := env.all_faculty } }
    else st
  | none => st

/-- The `f-string` error message shown for an unknown RFID tag. -/
def unknown_rfid_message (rfid_uid : String) : String :=
  "Unknown RFID tag: " ++ rfid_uid

/-- `ConsultEaseApp.handle_student_authenticated`: set `current_student` and
show the dashboard window for the student. -/
def handle_student_authenticated (student_data : Student) (env : ControllerEnv)
    (st : AppState) : AppState :=
  show_dashboard_window (some student_data) env
    { st with current_student := some student_data }

/-- `ConsultEaseApp.handle_rfid_scan`: if a student is associated with the
tag, authenticate them; otherwise show an error on the login window (when it
exists) and change nothing else. -/
def handle_rfid_scan (student : Option Student) (rfid_uid : String)
    (env : ControllerEnv) (st : AppState) : AppState :=
  match student with
  | some s => handle_student_authenticated s env st
  | none =>
    match st.login_window with
    | some lw =>
      let lw := { lw with errors := lw.errors ++ [unknown_rfid_message rfid_uid] }
      { st with login_window := some lw }
    | none => st

/-! ## `ConsultEaseApp.handle_consultation_request` -/

/-- The success message returned by `handle_consultation_request`. -/
def consultation_sent_message : String :=
  "Consultation request sent"

/-- The failure message returned when `create_consultation` returns `None`. -/
def consultation_failed_message : String :=
  "Failed to create consultation request"

/-- The exception raised by reading `self.current_student.id` when
`current_student` is `None` (line 779, outside the `try` block). -/
def attribute_error_message : String :=
  "AttributeError"

/-- `ConsultEaseApp.handle_consultation_request`.  `create_result` is the
outcome of `consultation_controller.create_consultation(...)`: a consultation,
`None`, or a raised exception with message `e`.  The result is `.error` when
the handler itself raises: before the `try` block it reads
`self.current_student.id`, which raises `AttributeError` when
`current_student` is `None`.  Otherwise it returns the updated state and the
`(bool, message)` pair the Python function returns. -/
def handle_consultation_request (faculty : Faculty)
    (create_result : Except String (Option Consultation))
    (env : ControllerEnv) (st : AppState) :
    Except String (AppState × Bool × String) :=
  match st.current_student with
  | none => .error attribute_error_message
  | some s =>
    match create_result with
    | .ok (some _c) =>
      -- refresh the consultation history and show a success message
      let st := match st.dashboard_window with
        | some dw =>
          let dw := { dw with
            consultation_history := env.student_consultations s.id,
            success_messages := dw.success_messages ++
              ["Consultation request sent to " ++ faculty.name] }
          { st with dashboard_window := some dw }
        | none => st
      .ok (st, true, consultation_sent_message)
    | .ok none =>
      -- show an error message and return failure
      let st := match st.dashboard_window with
        | some dw =>
          let dw := { dw with
            error_messages := dw.error_messages ++ [consultation_failed_message] }
          { st with dashboard_window := some dw }
        | none => st
      .ok (st, false, consultation_failed_message)
    | .error e =>
      -- show an error message and return failure without propagating
      let st := match st.dashboard_window with
        | some dw =>
          let dw := { dw with
            error_messages := dw.error_messages ++ ["Error: " ++ e] }
          { st with dashboard_window := some dw }
        | none => st
      .ok (st, false, "Error: " ++ e)

/-! ## `ConsultEaseApp._get_theme_preference` -/

/-- `ConsultEaseApp._get_theme_preference`.  `cfg` is the outcome of reading
the configuration: an exception, or `config.get('ui', {}).get('theme', ...)`
as an optional string (`none` when the key is absent, in which case the
Python `.get` default `'dark'` applies). -/
def get_theme_preference (cfg : Except String (Option String)) : String :=
  match cfg with
  | .error _ => "dark"
  | .ok theme_value =>
    let theme := match theme_value with
      | some t => t
      | none => "dark"
    if theme = "light" ∨ theme = "dark" then theme else "dark"

/-! ## Migration `add_consultation_response_fields.upgrade` -/

/-- The column added for the decline timestamp. -/
def declined_at_col : String :=
  "declined_at"

/-- The column added for the response message. -/
def response_message_col : String :=
  "response_message"

/-- Which steps of `upgrade()` raise during one run: obtaining/inspecting the
engine, and each of the two `op.add_column` calls. -/
structure MigrationEnv where
  inspect_fails : Bool
  add_declined_fails : Bool
  add_response_fails : Bool
deriving DecidableEq

/-- A run of `upgrade()` in which no step raises. -/
def noFailMigration : MigrationEnv :=
  { inspect_fails := false, add_declined_fails := false, add_response_fails := false }

/-- `upgrade()` from `add_consultation_response_fields.py`, acting on the
schema `columns` of the `consultations` table.  The column list is inspected
once; each of the two columns is added only when absent from that inspected
list.  Returns the boolean result of `upgrade()` and the resulting schema
(a step that raises leaves the schema as it was at that point and makes
`upgrade()` return `False` via its `except` clause). -/
def upgrade (env : MigrationEnv) (schema : List String) : Bool × List String :=
  if env.inspect_fails then (false, schema)
  else
    -- columns = [col['name'] for col in inspector.get_columns('consultations')]
    let columns := schema
    if declined_at_col ∈ columns then
      -- declined_at already present: no add_column call for it
      if response_message_col ∈ columns then (true, schema)
      else if env.add_response_fails then (false, schema)
      else (true, schema ++ [response_message_col])
    else if env.add_declined_fails then (false, schema)
    else
      let schema := schema ++ [declined_at_col]
      if response_message_col ∈ columns then (true, schema)
      else if env.add_response_fails then (false, schema)
      else (true, schema ++ [response_message_col])

/-! ## Sample inputs used by the witness theorems -/

/-- A service environment in which every external call succeeds and
`is_connected()` returns `True`. -/
def sampleServiceEnv : ServiceEnv :=
  { get_db := .ok (), get_async_mqtt_service := .ok (), mqtt_connect := .ok (),
    mqtt_disconnect := .ok (), mqtt_is_connected := .ok true,
    show_login_window_call := .ok () }

/-- A sample student. -/
def sampleStudent : Student :=
  { id := 7, name := "Jane Roe" }

/-- A sample faculty member. -/
def sampleFaculty : Faculty :=
  { id := 3, name := "Dr. John Smith" }

/-- A sample controller environment. -/
def sampleControllerEnv : ControllerEnv :=
  { available_faculty := [sampleFaculty], all_faculty := [sampleFaculty],
    student_consultations := fun _ => [⟨11⟩] }

/-- A sample RFID uid. -/
def sampleUid : String :=
  "A1B2C3"

/-- A sample application state: login window visible, no other window yet. -/
def sampleState : AppState :=
  { current_student := none,
    login_window := some { visible := true, errors := [] },
    dashboard_window := none,
    admin_login_window := none,
    admin_dashboard_window := none,
    timers := [],
    fullscreen := false }

/-- A sample visible dashboard window showing the sample student. -/
def sampleDashboard : DashboardWindowState :=
  { visible := true, student := some sampleStudent, faculty_list := [],
    consultation_history := [], success_messages := [], error_messages := [] }

/-- A sample state with a visible dashboard and a logged-in student. -/
def sampleDashState : AppState :=
  { current_student := some sampleStudent,
    login_window := some { visible := false, errors := [] },
    dashboard_window := some sampleDashboard,
    admin_login_window := none,
    admin_dashboard_window := none,
    timers := [],
    fullscreen := false }

/-- A failing external-call outcome used by witnesses. -/
def sampleError : String :=
  "connection refused"

/-- A configured theme value outside the two valid themes. -/
def sampleTheme : String :=
  "blue"

/-- A migration run whose `add_column` for `response_message` raises. -/
def sampleRespFailMigration : MigrationEnv :=
  { inspect_fails := false, add_declined_fails := false, add_response_fails := true }

/-- The dashboard window after a successful sample consultation request. -/
def sampleConsultSuccessDash : DashboardWindowState :=
  { sampleDashboard with
    consultation_history := sampleControllerEnv.student_consultations sampleStudent.id,
    success_messages := sampleDashboard.success_messages ++
      ["Consultation request sent to " ++ sampleFaculty.name] }

/-- The state produced by a successful sample consultation request. -/
def sampleConsultSuccess : AppState :=
  { sampleDashState with dashboard_window := some sampleConsultSuccessDash }

/-! ## Theorems -/

/-- C1: `_register_system_services` registers exactly the three services
DATABASE, MQTT and UI with the system coordinator, supplying for each one its
start, stop and health-check callables, so the coordinator's state maps each
service name to its three callables. -/
theorem register_system_services_registers_three :
    (register_system_services emptyCoordinator).services .DATABASE =
      some ⟨start_database_service, stop_database_service, check_database_health⟩ ∧
    (register_system_services emptyCoordinator).services .MQTT =
      some ⟨start_mqtt_service, stop_mqtt_service, check_mqtt_health⟩ ∧
    (register_system_services emptyCoordinator).services .UI =
      some ⟨start_ui_service, stop_ui_service, check_ui_health⟩ ∧
    (∀ t, ((register_system_services emptyCoordinator).services t).isSome = true) := by
  refine ⟨rfl, rfl, rfl, ?_⟩
  intro t
  cases t <;> rfl

/-- C2: initialization branches on the boolean returned by
`system_coordinator.start_system()`: `False` leads to `sys.exit(1)`, and the
five controllers are constructed exactly when it returns `True`. -/
theorem init_exits_iff_start_system_fails :
    init_after_start_system false = .exited 1 ∧
    init_after_start_system true =
      .started [.rfid, .faculty, .consultation, .admin, .faculty_response] ∧
    (∀ b, (∃ cs, init_after_start_system b = .started cs) ↔ b = true) := by
  refine ⟨rfl, rfl, ?_⟩
  intro b
  cases b <;> simp [init_after_start_system]

/-- C3: each of the nine registered service callables returns a boolean and
never propagates an exception: it returns `True` exactly when its underlying
operations succeed and `False` when one raises, and `_check_mqtt_health`
returns the value of `mqtt_service.is_connected()` when no exception occurs. -/
theorem service_callables_bool_spec :
    ∀ env : ServiceEnv,
      (start_database_service env = true ↔ env.get_db = .ok ()) ∧
      (stop_database_service env = true ↔ env.get_db = .ok ()) ∧
      (check_database_health env = true ↔ env.get_db = .ok ()) ∧
      (start_mqtt_service env = true ↔
        env.get_async_mqtt_service = .ok () ∧ env.mqtt_connect = .ok ()) ∧
      (stop_mqtt_service env = true ↔
        env.get_async_mqtt_service = .ok () ∧ env.mqtt_disconnect = .ok ()) ∧
      (∀ b, env.get_async_mqtt_service = .ok () → env.mqtt_is_connected = .ok b →
        check_mqtt_health env = b) ∧
      (∀ e, env.mqtt_is_connected = .error e → check_mqtt_health env = false) ∧
      (∀ e, env.get_async_mqtt_service = .error e → check_mqtt_health env = false) ∧
      (start_ui_service env = true ↔ env.show_login_window_call = .ok ()) ∧
      stop_ui_service env = true ∧
      check_ui_health env = true := by
  intro env
  obtain ⟨gdb, gms, mc, md, mic, slw⟩ := env
  cases gdb <;> cases gms <;> cases mc <;> cases md <;> cases mic <;> cases slw <;>
    simp [start_database_service, stop_database_service, check_database_health,
      start_mqtt_service, stop_mqtt_service, check_mqtt_health,
      start_ui_service, stop_ui_service, check_ui_health]

/-- Witness for C3 at an environment where every external call succeeds. -/
theorem service_callables_bool_spec_witness :
    check_mqtt_health sampleServiceEnv = true ∧
    start_database_service sampleServiceEnv = true := by
  constructor
  · exact (service_callables_bool_spec sampleServiceEnv).2.2.2.2.2.1 true rfl rfl
  · exact (service_callables_bool_spec sampleServiceEnv).1.mpr rfl

/-- C4: an RFID scan authenticates the student (sets `current_student` and
shows the dashboard window) exactly when a student is associated with the
scanned tag; an unknown tag only puts an error message on the login window
and leaves `current_student` (and the dashboard) unchanged. -/
theorem handle_rfid_scan_auth_iff :
    (∀ (s : Student) uid env st,
      (handle_rfid_scan (some s) uid env st).current_student = some s ∧
      (∃ dw, (handle_rfid_scan (some s) uid env st).dashboard_window = some dw ∧
        dw.visible = true)) ∧
    (∀ uid env st,
      (handle_rfid_scan none uid env st).current_student = st.current_student ∧
      (handle_rfid_scan none uid env st).dashboard_window = st.dashboard_window ∧
      (∀ lw, st.login_window = some lw →
        (handle_rfid_scan none uid env st).login_window =
          some { lw with errors := lw.errors ++ [unknown_rfid_message uid] })) := by
  constructor
  · intro s uid env st
    obtain ⟨cs, lw, dw, alw, adw, tm, fs⟩ := st
    cases lw <;> cases dw <;> cases alw <;> cases adw <;>
      simp [handle_rfid_scan, handle_student_authenticated, show_dashboard_window,
        newDashboardWindow]
  · intro uid env st
    obtain ⟨cs, lw, dw, alw, adw, tm, fs⟩ := st
    cases lw <;> simp [handle_rfid_scan]

/-- Witness for C4: an unknown tag at a state with a login window. -/
theorem handle_rfid_scan_auth_iff_witness :
    (handle_rfid_scan none sampleUid sampleControllerEnv sampleState).login_window =
      some { visible := true, errors := [unknown_rfid_message sampleUid] } := by
  have h := (handle_rfid_scan_auth_iff.2 sampleUid sampleControllerEnv sampleState).2.2
    { visible := true, errors := [] } rfl
  simpa using h

/-- C5: with a student logged in, `handle_consultation_request` returns
`(True, consultation_sent_message)` exactly when `create_consultation`
returned a consultation, returns `(False, m)` when it returned `None` or
raised, and never propagates the exception. -/
theorem handle_consultation_request_result :
    ∀ (faculty : Faculty) (create_result : Except String (Option Consultation))
      (env : ControllerEnv) (st : AppState) (s : Student),
      st.current_student = some s →
      ((∃ st', handle_consultation_request faculty create_result env st =
          .ok (st', true, consultation_sent_message)) ↔
        ∃ c, create_result = .ok (some c)) ∧
      (∀ e, create_result = .error e →
        ∃ st', handle_consultation_request faculty create_result env st =
          .ok (st', false, "Error: " ++ e)) ∧
      (create_result = .ok none →
        ∃ st', handle_consultation_request faculty create_result env st =
          .ok (st', false, consultation_failed_message)) ∧
      (∃ st' b m, handle_consultation_request faculty create_result env st =
        .ok (st', b, m)) := by
  intro faculty create_result env st s hs
  obtain ⟨cs, lw, dw, alw, adw, tm, fs⟩ := st
  simp only at hs
  subst hs
  rcases create_result with e | c
  · cases dw <;>
      simp [handle_consultation_request, consultation_sent_message,
        consultation_failed_message]
  · rcases c with _ | c <;> cases dw <;>
      simp [handle_consultation_request, consultation_sent_message,
        consultation_failed_message]

/-- Witness for C5: a successful consultation request from the sample state. -/
theorem handle_consultation_request_result_witness :
    handle_consultation_request sampleFaculty (.ok (some ⟨11⟩))
      sampleControllerEnv sampleDashState =
      .ok (sampleConsultSuccess, true, consultation_sent_message) := by
  obtain ⟨st', hst⟩ := (handle_consultation_request_result sampleFaculty (.ok (some ⟨11⟩))
    sampleControllerEnv sampleDashState sampleStudent rfl).1.mpr ⟨⟨11⟩, rfl⟩
  rfl

/-- C6: each service start function makes exactly one attempt per invocation:
`_start_mqtt_service` calls `connect()` at most once (exactly once when the
service getter succeeds) and returns `False` on the first failure, and
`_start_database_service` calls `get_db()` exactly once and returns `False`
on the first failure. -/
theorem start_services_single_attempt :
    (∀ getter results calls,
      (start_mqtt_service_counting getter results calls).2 ≤ calls + 1) ∧
    (∀ results calls,
      (start_mqtt_service_counting (.ok ()) results calls).2 = calls + 1) ∧
    (∀ results calls e, results calls = .error e →
      start_mqtt_service_counting (.ok ()) results calls = (false, calls + 1)) ∧
    (∀ results calls,
      (start_database_service_counting results calls).2 = calls + 1) ∧
    (∀ results calls e, results calls = .error e →
      start_database_service_counting results calls = (false, calls + 1)) := by
  refine ⟨?_, ?_, ?_, ?_, ?_⟩
  · intro getter results calls
    rcases getter with e | u
    · simp [start_mqtt_service_counting]
    · rcases h : results calls with e | u <;>
        simp [start_mqtt_service_counting, external_call, h]
  · intro results calls
    rcases h : results calls with e | u <;>
      simp [start_mqtt_service_counting, external_call, h]
  · intro results calls e h
    simp [start_mqtt_service_counting, external_call, h]
  · intro results calls
    rcases h : results calls with e | u <;>
      simp [start_database_service_counting, external_call, h]
  · intro results calls e h
    simp [start_database_service_counting, external_call, h]

/-- Witness for C6: a first `connect()` failure yields `False` after one call. -/
theorem start_services_single_attempt_witness :
    start_mqtt_service_counting (.ok ()) (fun _ => .error sampleError) 0 = (false, 1) :=
  start_services_single_attempt.2.2.1 (fun _ => .error sampleError) 0 sampleError rfl

/-- C7: `show_dashboard_window` with student data sets the dashboard's
faculty list to exactly `get_available_faculty()` and schedules a refresh
5000 ms later; `handle_faculty_updated` re-schedules itself exactly while the
dashboard window is visible, so refreshing stops once it no longer is. -/
theorem dashboard_refresh_schedule :
    (∀ s env st,
      ∃ dw, (show_dashboard_window (some s) env st).dashboard_window = some dw ∧
        dw.faculty_list = env.available_faculty ∧ dw.visible = true) ∧
    (∀ s env st, (show_dashboard_window (some s) env st).timers =
      st.timers ++ [⟨5000, .faculty_updated⟩]) ∧
    (∀ env st dw, st.dashboard_window = some dw → dw.visible = true →
      (handle_faculty_updated env st).timers = st.timers ++ [⟨5000, .faculty_updated⟩]) ∧
    (∀ env st, (∀ dw, st.dashboard_window = some dw → dw.visible = false) →
      (handle_faculty_updated env st).timers = st.timers) := by
  refine ⟨?_, ?_, ?_, ?_⟩
  · intro s env st
    obtain ⟨cs, lw, dw, alw, adw, tm, fs⟩ := st
    cases dw <;> simp [show_dashboard_window, newDashboardWindow]
  · intro s env st
    obtain ⟨cs, lw, dw, alw, adw, tm, fs⟩ := st
    cases dw <;> simp [show_dashboard_window, newDashboardWindow]
  · intro env st dw hdw hv
    obtain ⟨cs, lw, dwo, alw, adw, tm, fs⟩ := st
    simp only at hdw
    subst hdw
    cases adw with
    | none => simp [handle_faculty_updated, hv]
    | some aw =>
      cases haw : aw.visible <;> simp [handle_faculty_updated, hv, haw]
  · intro env st hinv
    obtain ⟨cs, lw, dwo, alw, adw, tm, fs⟩ := st
    cases dwo with
    | none =>
      cases adw with
      | none => simp [handle_faculty_updated]
      | some aw => cases haw : aw.visible <;> simp [handle_faculty_updated, haw]
    | some dw =>
      have hv : dw.visible = false := hinv dw rfl
      cases adw with
      | none => simp [handle_faculty_updated, hv]
      | some aw => cases haw : aw.visible <;> simp [handle_faculty_updated, hv, haw]

/-- Witness for C7: the visible sample dashboard gets a refresh re-scheduled. -/
theorem dashboard_refresh_schedule_witness :
    (handle_faculty_updated sampleControllerEnv sampleDashState).timers =
      [⟨5000, .faculty_updated⟩] := by
  have h := dashboard_refresh_schedule.2.2.1 sampleControllerEnv sampleDashState
    sampleDashboard rfl rfl
  simpa using h

/-- C8: after `show_login_window` returns — on every path, with or without a
transition — `current_student` is `None`, the login window is displayed, and
each of the other three windows that exists has been hidden. -/
theorem show_login_window_resets_state :
    ∀ st : AppState,
      (show_login_window st).current_student = none ∧
      (∃ lw, (show_login_window st).login_window = some lw ∧ lw.visible = true) ∧
      (∀ w, (show_login_window st).dashboard_window = some w → w.visible = false) ∧
      (∀ w, (show_login_window st).admin_login_window = some w → w.visible = false) ∧
      (∀ w, (show_login_window st).admin_dashboard_window = some w → w.visible = false) := by
  intro st
  obtain ⟨cs, lw, dw, alw, adw, tm, fs⟩ := st
  cases lw <;> cases dw <;> cases alw <;> cases adw <;>
    simp [show_login_window, newLoginWindow]

/-- Witness for C8: logging out from the visible sample dashboard state. -/
theorem show_login_window_resets_state_witness :
    (show_login_window sampleDashState).current_student = none ∧
    Option.map DashboardWindowState.visible
      ((show_login_window sampleDashState).dashboard_window) = some false := by
  refine ⟨(show_login_window_resets_state sampleDashState).1, ?_⟩
  have he : (show_login_window sampleDashState).dashboard_window =
      some { sampleDashboard with visible := false } := rfl
  have h := (show_login_window_resets_state sampleDashState).2.2.1 _ he
  rw [he]
  simp [h]

/-- C9: `_get_theme_preference` is total and always yields `light` or `dark`:
any other configured value, a missing key, and an exception while reading the
configuration all yield `dark`. -/
theorem get_theme_preference_light_or_dark :
    (∀ cfg, get_theme_preference cfg = "light" ∨ get_theme_preference cfg = "dark") ∧
    (∀ t, t ≠ "light" → t ≠ "dark" → get_theme_preference (.ok (some t)) = "dark") ∧
    (∀ e, get_theme_preference (.error e) = "dark") ∧
    get_theme_preference (.ok none) = "dark" := by
  refine ⟨?_, ?_, fun e => rfl, rfl⟩
  · intro cfg
    rcases cfg with e | tv
    · right; rfl
    · rcases tv with _ | t
      · right; rfl
      · by_cases hl : t = "light"
        · left; simp [get_theme_preference, hl]
        · right
          by_cases hd : t = "dark" <;> simp [get_theme_preference, hl, hd]
  · intro t hl hd
    simp [get_theme_preference, hl, hd]

/-- Witness for C9: an invalid configured theme value falls back to dark. -/
theorem get_theme_preference_light_or_dark_witness :
    get_theme_preference (.ok (some sampleTheme)) = "dark" :=
  get_theme_preference_light_or_dark.2.1 sampleTheme (by decide) (by decide)

/-- C10: the migration upgrade adds `declined_at` and `response_message` only
when absent, so running it twice gives the same columns as running it once;
it returns `True` on success and `False` (without raising) when a step
throws. -/
theorem upgrade_idempotent :
    (∀ cols, (upgrade noFailMigration cols).1 = true) ∧
    (∀ cols, declined_at_col ∈ (upgrade noFailMigration cols).2 ∧
      response_message_col ∈ (upgrade noFailMigration cols).2) ∧
    (∀ cols, cols.Nodup → ((upgrade noFailMigration cols).2).Nodup) ∧
    (∀ cols, upgrade noFailMigration ((upgrade noFailMigration cols).2) =
      (true, (upgrade noFailMigration cols).2)) ∧
    (∀ env cols, env.inspect_fails = true → (upgrade env cols).1 = false) ∧
    (∀ env cols, env.inspect_fails = false → declined_at_col ∉ cols →
      env.add_declined_fails = true → (upgrade env cols).1 = false) ∧
    (∀ env cols, env.inspect_fails = false → env.add_declined_fails = false →
      response_message_col ∉ cols → env.add_response_fails = true →
      (upgrade env cols).1 = false) := by
  have hne : declined_at_col ≠ response_message_col := by decide
  refine ⟨?_, ?_, ?_, ?_, ?_, ?_, ?_⟩
  · intro cols
    by_cases h1 : declined_at_col ∈ cols <;> by_cases h2 : response_message_col ∈ cols <;>
      simp [upgrade, noFailMigration, h1, h2]
  · intro cols
    by_cases h1 : declined_at_col ∈ cols <;> by_cases h2 : response_message_col ∈ cols <;>
      simp [upgrade, noFailMigration, h1, h2]
  · intro cols hnd
    by_cases h1 : declined_at_col ∈ cols <;> by_cases h2 : response_message_col ∈ cols <;>
      simp [upgrade, noFailMigration, h1, h2, List.nodup_append, hnd, hne, Ne.symm hne]
  · intro cols
    by_cases h1 : declined_at_col ∈ cols <;> by_cases h2 : response_message_col ∈ cols <;>
      simp [upgrade, noFailMigration, h1, h2]
  · intro env cols h
    simp [upgrade, h]
  · intro env cols h hd hf
    simp [upgrade, h, hd, hf]
  · intro env cols h hdf hr hf
    by_cases h1 : declined_at_col ∈ cols <;> simp [upgrade, h, hdf, hr, hf, h1]

/-- Witness for C10: a raising `add_column` makes the upgrade return `False`. -/
theorem upgrade_idempotent_witness :
    (upgrade sampleRespFailMigration [declined_at_col]).1 = false :=
  upgrade_idempotent.2.2.2.2.2.2 sampleRespFailMigration [declined_at_col]
    rfl rfl (by decide) rfl

end ConsultEase
